import Mathlib

/-!
Shallow embedding of `scrapy/contrib/downloadermiddleware/httpoauth.py`:
the OAuth1 token-pool rotation middleware (`HttpOAuth1Middleware`) and the
OAuth2 bearer middleware (`HttpOAuth2Middleware`), together with a trace
semantics for sequences of `process_request` / `process_response` /
`spider_idle` events.

Python floats (timestamps, `float('inf')`, `float('-inf')`) are embedded as
exact rationals extended with the two infinities and `nan`; all arithmetic
the middleware performs on them (subtraction, comparison with zero) is exact
on the values that occur, so the embedding is faithful.  Python exceptions
(`NotConfigured`, `IgnoreRequest`, `NameError`, `KeyError`, the OAuth2
`InsecureTransportError`) are embedded as error values; mutation of the
middleware object is embedded as explicit state passing, with each operation
returning the post-mutation state even when it raises (deques mutated before
an exception stay mutated, as in Python).
-/

set_option maxHeartbeats 1000000

deriving instance DecidableEq for Except

attribute [local semireducible] Rat.add Rat.sub Rat.mul

/-- Python float values as the middleware uses them: exact rationals plus
`float('inf')`, `float('-inf')` and `nan`. -/
inductive PyFloat where
  | finite (q : ℚ)
  | inf
  | negInf
  | nan
deriving DecidableEq, Repr

/-- Subtraction on Python floats (IEEE-754 rules for the infinities). -/
def PyFloat.sub : PyFloat → PyFloat → PyFloat
  | .nan, _ => .nan
  | _, .nan => .nan
  | .finite a, .finite b => .finite (a - b)
  | .finite _, .inf => .negInf
  | .finite _, .negInf => .inf
  | .inf, .finite _ => .inf
  | .inf, .negInf => .inf
  | .inf, .inf => .nan
  | .negInf, .finite _ => .negInf
  | .negInf, .inf => .negInf
  | .negInf, .negInf => .nan

/-- Python `<` on floats (every comparison involving `nan` is false). -/
def PyFloat.lt : PyFloat → PyFloat → Bool
  | .nan, _ => false
  | _, .nan => false
  | .negInf, .negInf => false
  | .negInf, _ => true
  | _, .negInf => false
  | .inf, _ => false
  | .finite _, .inf => true
  | .finite a, .finite b => decide (a < b)

/-- Python `max a b` on floats, as used by the spec's `max(0, ·)` floor. -/
def PyFloat.pymax (a b : PyFloat) : PyFloat := if PyFloat.lt a b then b else a

/-- An OAuth1 credential bundle: one entry of the spider's
`oauth_token_list` (the four fields read by `process_request`). -/
structure Token where
  client_key : String
  client_secret : String
  resource_owner_key : String
  resource_owner_secret : String
deriving DecidableEq, Repr

/-- The `Authorization` header produced by the external oauthlib signers:
recorded as the data the middleware passed to the signer. -/
inductive AuthHeader where
  | oauth1sig (token : Token) (url : String)
  | oauth2bearer (url : String)
deriving DecidableEq, Repr

/-- The request metadata keys the middleware touches (`request.meta`):
a key is absent iff the field is `none`. -/
structure Meta where
  oauth : Option Bool := none
  token : Option Token := none
  token_requests_succeed : Option Int := none
deriving DecidableEq, Repr

/-- An outbound request: URL, metadata dict and the `Authorization` header
slot the middleware writes. -/
structure Request where
  url : String
  meta : Meta := {}
  authorization : Option AuthHeader := none
deriving DecidableEq, Repr

/-- Python exceptions and exception-like signals raised by the middleware.
`overflowError` stands for the exception `time.sleep(float('inf'))` raises
in CPython (OverflowError on Python 3, IOError on Python 2): under no
reading does an infinite sleep complete, so the code after it never runs. -/
inductive PyErr where
  | notConfigured
  | ignoreRequest
  | nameError (name : String)
  | keyError (key : String)
  | indexError
  | insecureTransportError
  | overflowError
deriving DecidableEq, Repr

namespace HttpOAuth1Middleware

/-- The mutable attributes of `HttpOAuth1Middleware` set by `spider_opened`:
the live deque of `(token, requests_succeed)` pairs, the dead deque of
`(token, time_died)` pairs, the held requests and the configured window. -/
structure OAuth1State where
  tokens_live : List (Token × Int)
  tokens_dead : List (Token × PyFloat)
  requests_on_hold : List Request
  REQUEST_WINDOW_SIZE_MINS : ℚ
deriving DecidableEq, Repr

/-- `spider_opened`: raises `NotConfigured` when the spider supplies no
`oauth_token_list`; otherwise every token starts dead with
`time_died = float('-inf')` (via `zip(tokens, [float('-inf')] * len(tokens))`)
and both the live deque and the holding list start empty. -/
def spider_opened (oauth_token_list : Option (List Token))
    (oauth_request_windows_size_mins : ℚ) : Except PyErr OAuth1State :=
  match oauth_token_list with
  | none => .error .notConfigured
  | some tokens =>
      .ok { tokens_live := [],
            tokens_dead := tokens.zip (List.replicate tokens.length PyFloat.negInf),
            requests_on_hold := [],
            REQUEST_WINDOW_SIZE_MINS := oauth_request_windows_size_mins }

/-- `default_check_response`: ignores the response and returns
`(token_dead, retry_request) = (True, False)`. -/
def default_check_response {α : Type} (_response : α) : Bool × Bool := (true, false)

/-- `_dead_token_time_left`: seconds until the oldest dead token may be
reused, `float('inf')` when no token is dead.  `now` stands for `time()`. -/
def dead_token_time_left (s : OAuth1State) (now : ℚ) : PyFloat :=
  match s.tokens_dead with
  | [] => PyFloat.inf
  | (_, time_expired) :: _ =>
      let time_left := PyFloat.sub (.finite (s.REQUEST_WINDOW_SIZE_MINS * 60))
        (PyFloat.sub (.finite now) time_expired)
      if PyFloat.lt (.finite 0) time_left then time_left else .finite 0

/-- `_obtain_token`: `(None, None)` when the live deque is empty and the
oldest dead token still has cooldown left; otherwise pop from the live deque
when possible, else from the dead deque.  The live branch assigns local
`requests_succeed` but the function returns the name `requests_done`, which
that branch never binds, so popping from a non-empty live deque raises a
`NameError` (Python `UnboundLocalError`) after the pop has mutated the deque. -/
def obtain_token (s : OAuth1State) (now : ℚ) :
    OAuth1State × Except PyErr (Option (Token × Int)) :=
  if s.tokens_live.isEmpty && PyFloat.lt (.finite 0) (dead_token_time_left s now) then
    (s, .ok none)
  else
    match s.tokens_live with
    | (_token, _requests_succeed) :: rest =>
        ({ s with tokens_live := rest }, .error (.nameError "requests_done"))
    | [] =>
        match s.tokens_dead with
        | (token, _) :: rest =>
            ({ s with tokens_dead := rest }, .ok (some (token, 0)))
        | [] => (s, .error .indexError)

/-- `process_request`: obtain a token; when none is available append the
request to `requests_on_hold` and raise `IgnoreRequest`; otherwise sign the
request (external `Oauth1Client.sign` on the token's four fields and the
URL), store the header, and set `meta['oauth']` and `meta['token']`.
No other meta key is written (in particular not `token_requests_succeed`). -/
def process_request (s : OAuth1State) (request : Request) (now : ℚ) :
    OAuth1State × Except PyErr Request :=
  match obtain_token s now with
  | (s', .error e) => (s', .error e)
  | (s', .ok none) =>
      ({ s' with requests_on_hold := s'.requests_on_hold ++ [request] },
       .error .ignoreRequest)
  | (s', .ok (some (token, _requests_done))) =>
      (s', .ok { request with
                  authorization := some (.oauth1sig token request.url),
                  meta := { request.meta with oauth := some true, token := some token } })

/-- What `process_response` returns: the rescheduled request, the response
itself, or Python's implicit `None` when the request did not use oauth. -/
inductive RespResult (α : Type) where
  | retryRequest (r : Request)
  | response (resp : α)
  | noneReturned
deriving DecidableEq, Repr

/-- `process_response`: when `meta.get('oauth', False)` is set, classify the
response with `check_response`, recycle the token to the dead deque (with
`time()`) or — after reading `meta['token_requests_succeed']`, a key
`process_request` never writes, hence a `KeyError` — to the live deque with
the incremented counter; then either reschedule the request with the token
keys deleted, or return the response.  Without the oauth flag the function
falls through and returns `None`. -/
def process_response {α : Type} (check_response : α → Bool × Bool)
    (s : OAuth1State) (request : Request) (response : α) (now : ℚ) :
    OAuth1State × Except PyErr (RespResult α) :=
  let oauth_used := request.meta.oauth.getD false
  if oauth_used then
    let (token_dead, retry_request) := check_response response
    match request.meta.token with
    | none => (s, .error (.keyError "token"))
    | some token =>
        if token_dead then
          let s' := { s with tokens_dead := s.tokens_dead ++ [(token, .finite now)] }
          if retry_request then
            (s', .ok (.retryRequest { request with
              meta := { request.meta with token := none, oauth := none } }))
          else
            (s', .ok (.response response))
        else
          match request.meta.token_requests_succeed with
          | none => (s, .error (.keyError "token_requests_succeed"))
          | some requests_succeed =>
              let s' := { s with
                tokens_live := s.tokens_live ++ [(token, requests_succeed + 1)] }
              if retry_request then
                (s', .ok (.retryRequest { request with
                  meta := { request.meta with token := none, oauth := none } }))
              else
                (s', .ok (.response response))
  else
    (s, .ok .noneReturned)

/-- Observable effects of one `spider_idle` call: the requests re-crawled
(in order), the duration slept if any, and whether `DontCloseSpider` was
raised. -/
structure IdleResult where
  dispatched : List Request
  waited : Option PyFloat
  keepRunning : Bool
deriving DecidableEq, Repr

/-- `spider_idle`: with no held requests it does nothing.  Otherwise, when
the live deque is empty and the oldest dead token still has positive
cooldown, it calls `sleep(time_left)`.  When that `time_left` is
`float('inf')` (live deque empty and dead deque empty, so no token will
ever become available by waiting) the sleep never completes — CPython
raises — so the re-crawl loop, the clearing of `requests_on_hold` and
`DontCloseSpider` are never reached and the state is left as it was.
Otherwise the sleep finishes and every held request is re-crawled in list
order, `requests_on_hold` is cleared, and `DontCloseSpider` is raised. -/
def spider_idle (s : OAuth1State) (now : ℚ) :
    OAuth1State × Except PyErr IdleResult :=
  if s.requests_on_hold.isEmpty then
    (s, .ok { dispatched := [], waited := none, keepRunning := false })
  else
    let waited : Option PyFloat :=
      if s.tokens_live.isEmpty then
        let time_left := dead_token_time_left s now
        if PyFloat.lt (.finite 0) time_left then some time_left else none
      else none
    if waited = some PyFloat.inf then
      (s, .error .overflowError)
    else
      ({ s with requests_on_hold := [] },
       .ok { dispatched := s.requests_on_hold, waited := waited, keepRunning := true })

/-- One observable event of the middleware's lifetime after `spider_opened`:
a fresh request with the given URL entering `process_request`, a response for
the i-th in-flight signed request entering `process_response` with the given
classifier verdict, or a `spider_idle` signal. -/
inductive Step where
  | req (url : String) (now : ℚ)
  | resp (i : Nat) (token_dead retry : Bool) (now : ℚ)
  | idle (now : ℚ)
deriving DecidableEq, Repr

/-- Middleware state together with the signed requests currently in flight
(released by `process_request`, no response processed yet). -/
structure SysState where
  mw : OAuth1State
  in_flight : List Request
deriving DecidableEq, Repr

/-- Remove the element at index `i` (identity when out of range). -/
def removeNth {α : Type} : List α → Nat → List α
  | [], _ => []
  | _ :: l, 0 => l
  | a :: l, n + 1 => a :: removeNth l n

/-- Trace semantics: apply one event to the system state.  A request whose
response was processed successfully leaves the in-flight list (its token
binding is consumed); a request whose processing raised stays in flight with
its metadata intact. -/
def step (σ : SysState) : Step → SysState
  | .req url now =>
      match process_request σ.mw { url := url } now with
      | (s', .ok r') => { mw := s', in_flight := σ.in_flight ++ [r'] }
      | (s', .error _) => { mw := s', in_flight := σ.in_flight }
  | .resp i token_dead retry now =>
      match σ.in_flight.get? i with
      | none => σ
      | some r =>
          match process_response (fun _ => (token_dead, retry)) σ.mw r () now with
          | (s', .ok (.retryRequest _)) => { mw := s', in_flight := removeNth σ.in_flight i }
          | (s', .ok (.response _)) => { mw := s', in_flight := removeNth σ.in_flight i }
          | (s', .ok .noneReturned) => { mw := s', in_flight := σ.in_flight }
          | (s', .error _) => { mw := s', in_flight := σ.in_flight }
  | .idle now => { mw := (spider_idle σ.mw now).1, in_flight := σ.in_flight }

/-- The system state right after `spider_opened` succeeded on token list
`ts` with window `w`: no request in flight. -/
def initSys (ts : List Token) (w : ℚ) : SysState :=
  { mw := { tokens_live := [],
            tokens_dead := ts.zip (List.replicate ts.length PyFloat.negInf),
            requests_on_hold := [],
            REQUEST_WINDOW_SIZE_MINS := w },
    in_flight := [] }

/-- Run a sequence of events from the freshly opened middleware. -/
def run (ts : List Token) (w : ℚ) (steps : List Step) : SysState :=
  steps.foldl step (initSys ts w)

/-- Tokens held by the live deque, in order. -/
def liveTokens (s : OAuth1State) : List Token := s.tokens_live.map Prod.fst

/-- Tokens held by the dead deque, in order. -/
def deadTokens (s : OAuth1State) : List Token := s.tokens_dead.map Prod.fst

/-- Tokens bound to in-flight requests (`meta['token']`), in order. -/
def flightTokens (l : List Request) : List Token :=
  l.filterMap (fun r => r.meta.token)

/-- Every token of the system, across live deque, dead deque and in-flight
request bindings. -/
def poolTokens (σ : SysState) : List Token :=
  liveTokens σ.mw ++ deadTokens σ.mw ++ flightTokens σ.in_flight

end HttpOAuth1Middleware

namespace HttpOAuth2Middleware

/-- `_is_secure_transport`: the URL, lower-cased character by character,
starts with `https://` (the string is embedded as its character list). -/
def is_secure_transport (uri : String) : Bool :=
  List.isPrefixOf "https://".data (uri.data.map Char.toLower)

/-- What `HttpOAuth2Middleware.process_request` returns: the replaced
request, or Python's implicit `None` when it does not act. -/
inductive OAuth2Result where
  | noneReturned
  | replaced (r : Request)
deriving DecidableEq, Repr

/-- `process_request` of `HttpOAuth2Middleware`: acts only when an auth
client is configured and `meta.get('oauth', False)` is unset; then rejects
non-https URLs with `InsecureTransportError`, otherwise attaches the bearer
token (external `add_token`), marks `meta['oauth']` and returns the replaced
request. -/
def process_request (hasAuth : Bool) (request : Request) : Except PyErr OAuth2Result :=
  let oauth_used := request.meta.oauth.getD false
  if hasAuth && !oauth_used then
    if !(is_secure_transport request.url) then
      .error .insecureTransportError
    else
      .ok (.replaced { request with
            authorization := some (.oauth2bearer request.url),
            meta := { request.meta with oauth := some true } })
  else
    .ok .noneReturned

end HttpOAuth2Middleware

namespace HttpOAuth1Middleware

/-- A concrete credential bundle (token A) for concrete scenarios. -/
def tokA : Token :=
  { client_key := "ckA", client_secret := "csA",
    resource_owner_key := "rokA", resource_owner_secret := "rosA" }

/-- A second concrete credential bundle (token B). -/
def tokB : Token :=
  { client_key := "ckB", client_secret := "csB",
    resource_owner_key := "rokB", resource_owner_secret := "rosB" }

/-- A pool state whose live deque holds token A; exercises the live branch
of `_obtain_token`. -/
def c3s : OAuth1State :=
  { tokens_live := [(tokA, 0)], tokens_dead := [], requests_on_hold := [],
    REQUEST_WINDOW_SIZE_MINS := 0 }

/-- Freshly opened pool over the single token A, zero-minute window. -/
def c4s0 : OAuth1State :=
  { tokens_live := [], tokens_dead := [(tokA, .negInf)], requests_on_hold := [],
    REQUEST_WINDOW_SIZE_MINS := 0 }

/-- `c4s0` after token A was drawn. -/
def c4s1 : OAuth1State :=
  { tokens_live := [], tokens_dead := [], requests_on_hold := [],
    REQUEST_WINDOW_SIZE_MINS := 0 }

/-- A fresh outbound request (empty meta). -/
def c4req : Request := { url := "https://api.example/r" }

/-- The request `process_request` produces from `c4req` after drawing
token A: signed header, oauth flag and token reference set, and no
`token_requests_succeed` key. -/
def c4signed : Request :=
  { url := "https://api.example/r",
    meta := { oauth := some true, token := some tokA, token_requests_succeed := none },
    authorization := some (.oauth1sig tokA "https://api.example/r") }

/-- A pool state with an empty dead deque and a 2-minute window. -/
def c5sEmpty : OAuth1State :=
  { tokens_live := [], tokens_dead := [], requests_on_hold := [],
    REQUEST_WINDOW_SIZE_MINS := 2 }

/-- A pool state with two dead entries and a 2-minute window. -/
def c5sFull : OAuth1State :=
  { tokens_live := [], tokens_dead := [(tokA, .finite 3), (tokB, .finite 100)],
    requests_on_hold := [], REQUEST_WINDOW_SIZE_MINS := 2 }

/-- C6 scenario: pool freshly opened on `[A, B]` with a 1-minute window. -/
def c6s0 : OAuth1State :=
  { tokens_live := [], tokens_dead := [(tokA, .negInf), (tokB, .negInf)],
    requests_on_hold := [], REQUEST_WINDOW_SIZE_MINS := 1 }

/-- `c6s0` after token A was drawn. -/
def c6s1 : OAuth1State :=
  { tokens_live := [], tokens_dead := [(tokB, .negInf)],
    requests_on_hold := [], REQUEST_WINDOW_SIZE_MINS := 1 }

/-- `c6s1` after token B was drawn. -/
def c6s2 : OAuth1State :=
  { tokens_live := [], tokens_dead := [],
    requests_on_hold := [], REQUEST_WINDOW_SIZE_MINS := 1 }

/-- `c6s2` after token A was retired at t = 0. -/
def c6s3 : OAuth1State :=
  { tokens_live := [], tokens_dead := [(tokA, .finite 0)],
    requests_on_hold := [], REQUEST_WINDOW_SIZE_MINS := 1 }

/-- `c6s3` after token B was retired at t = 0. -/
def c6s4 : OAuth1State :=
  { tokens_live := [], tokens_dead := [(tokA, .finite 0), (tokB, .finite 0)],
    requests_on_hold := [], REQUEST_WINDOW_SIZE_MINS := 1 }

/-- `c6s4` after a request failed to acquire a token and was held. -/
def c6s4h : OAuth1State :=
  { tokens_live := [], tokens_dead := [(tokA, .finite 0), (tokB, .finite 0)],
    requests_on_hold := [{ url := "https://api.example/3" }],
    REQUEST_WINDOW_SIZE_MINS := 1 }

/-- `c6s4h` after token A was drawn again at t = 60. -/
def c6s5 : OAuth1State :=
  { tokens_live := [], tokens_dead := [(tokB, .finite 0)],
    requests_on_hold := [{ url := "https://api.example/3" }],
    REQUEST_WINDOW_SIZE_MINS := 1 }

/-- First C6 request, signed with token A. -/
def c6ra : Request :=
  { url := "https://api.example/1",
    meta := { oauth := some true, token := some tokA, token_requests_succeed := none },
    authorization := some (.oauth1sig tokA "https://api.example/1") }

/-- Second C6 request, signed with token B. -/
def c6rb : Request :=
  { url := "https://api.example/2",
    meta := { oauth := some true, token := some tokB, token_requests_succeed := none },
    authorization := some (.oauth1sig tokB "https://api.example/2") }

/-- Fourth C6 request, signed with token A drawn again after its cooldown. -/
def c6rc : Request :=
  { url := "https://api.example/4",
    meta := { oauth := some true, token := some tokA, token_requests_succeed := none },
    authorization := some (.oauth1sig tokA "https://api.example/4") }

/-- A pool state with one held request and one cooling-down dead token
(retired at t = 0), 1-minute window. -/
def c7s : OAuth1State :=
  { tokens_live := [], tokens_dead := [(tokA, .finite 0)],
    requests_on_hold := [{ url := "https://h/1" }],
    REQUEST_WINDOW_SIZE_MINS := 1 }

/-- A pool state with one held request and no token in either queue (as
reached when a one-token pool's token is bound to an in-flight request
while a second request is held). -/
def c7empty : OAuth1State :=
  { tokens_live := [], tokens_dead := [],
    requests_on_hold := [{ url := "https://h/1" }],
    REQUEST_WINDOW_SIZE_MINS := 1 }

/-- Trace invariant: after `spider_opened` on token list `ts`, the live
deque can never be repopulated (the only append to it first reads the
`token_requests_succeed` meta key, which `process_request` never writes),
every in-flight request lacks that key, and the tokens across live deque,
dead deque and in-flight bindings are exactly the initial ones. -/
def Inv (ts : List Token) (σ : SysState) : Prop :=
  σ.mw.tokens_live = [] ∧
  (∀ r ∈ σ.in_flight, r.meta.token_requests_succeed = none) ∧
  List.Perm (poolTokens σ) ts

/-- A concrete event sequence for the conservation law: sign a request,
retire its token through a dead-classified response, sign another request,
and let the spider go idle. -/
def c1steps : List Step :=
  [Step.req "https://api.example/1" 0,
   Step.resp 0 true false 10,
   Step.req "https://api.example/2" 20,
   Step.idle 30]

end HttpOAuth1Middleware

namespace HttpOAuth1Middleware

theorem zip_replicate_eq_map {α β : Type} (l : List α) (x : β) :
    l.zip (List.replicate l.length x) = l.map (fun a => (a, x)) := by
  induction l with
  | nil => rfl
  | cons a t ih => simp [List.replicate_succ, ih]

theorem map_fst_map_pair {α β : Type} (l : List α) (x : β) :
    (l.map (fun a => (a, x))).map Prod.fst = l := by
  induction l with
  | nil => rfl
  | cons a t ih => simp [ih]

/-- C2 (counterexample): a zero-token (empty) list supplied at
initialization does NOT fail to start: `spider_opened` only checks for a
missing (`None`) token list, so an empty list yields a fully constructed
pool with empty live and dead deques. -/
theorem C2_counterexample :
    spider_opened (some ([] : List Token)) 1 =
      .ok { tokens_live := [], tokens_dead := [], requests_on_hold := [],
            REQUEST_WINDOW_SIZE_MINS := 1 } := rfl

/-- C2 (amended): initialization fails with the configuration error
`NotConfigured` exactly when the spider supplies no token list (`None`);
any supplied list — including the empty one — initializes successfully,
with every token dead at time `-inf`, the live deque empty and the holding
list empty. -/
theorem C2_theorem (w : ℚ) (ts : List Token) :
    spider_opened none w = .error .notConfigured ∧
    spider_opened (some ts) w =
      .ok { tokens_live := [], tokens_dead := ts.map (fun t => (t, PyFloat.negInf)),
            requests_on_hold := [], REQUEST_WINDOW_SIZE_MINS := w } := by
  refine ⟨rfl, ?_⟩
  simp [spider_opened, zip_replicate_eq_map]

/-- C3 (code bug): with the live queue non-empty (here `[(A, 0)]`),
`_obtain_token` pops the front entry but then raises a `NameError` instead
of returning it: the live branch binds `requests_succeed` while the
function returns the never-bound name `requests_done`.  The popped token is
in neither queue afterwards. -/
theorem C3_theorem :
    obtain_token c3s 0 =
      ({ tokens_live := [], tokens_dead := [], requests_on_hold := [],
         REQUEST_WINDOW_SIZE_MINS := 0 }, .error (.nameError "requests_done")) := rfl

/-- C4 (code bug): `process_request` signs the request and attaches the
oauth flag and token reference but never attaches a success counter
(`token_requests_succeed` stays absent); consequently, for a response the
classifier judges `(token_dead = False, retry = False)`, `process_response`
raises `KeyError('token_requests_succeed')` instead of incrementing the
counter and recycling the token to the live queue. -/
theorem C4_theorem :
    process_request c4s0 c4req 0 = (c4s1, .ok c4signed) ∧
    c4signed.meta.token_requests_succeed = none ∧
    process_response (fun _ => (false, false)) c4s1 c4signed () 0 =
      (c4s1, .error (.keyError "token_requests_succeed")) :=
  ⟨rfl, rfl, rfl⟩

/-- C5 (confirmed): for every pool state and current time,
`_dead_token_time_left` returns infinity when the dead queue is empty, and
otherwise returns `max(0, window - (now - earliest_death_time))` computed
only from the front (oldest) dead entry — the remaining entries do not
influence the result — and floored at zero. -/
theorem C5_theorem (s : OAuth1State) (now : ℚ) :
    (s.tokens_dead = [] → dead_token_time_left s now = PyFloat.inf) ∧
    (∀ tok d rest, s.tokens_dead = (tok, d) :: rest →
      dead_token_time_left s now =
        PyFloat.pymax (.finite 0)
          (PyFloat.sub (.finite (s.REQUEST_WINDOW_SIZE_MINS * 60))
            (PyFloat.sub (.finite now) d))) := by
  constructor
  · intro h
    simp [dead_token_time_left, h]
  · intro tok d rest h
    simp [dead_token_time_left, h, PyFloat.pymax]

/-- C5 witness: the empty-dead-queue case at time 5 and the populated case
(front entry died at t = 3, window 2 minutes) at time 10. -/
theorem C5_witness :
    dead_token_time_left c5sEmpty 5 = PyFloat.inf ∧
    dead_token_time_left c5sFull 10 =
      PyFloat.pymax (.finite 0)
        (PyFloat.sub (.finite (c5sFull.REQUEST_WINDOW_SIZE_MINS * 60))
          (PyFloat.sub (.finite 10) (.finite 3))) :=
  ⟨(C5_theorem c5sEmpty 5).1 rfl,
   (C5_theorem c5sFull 10).2 tokA (.finite 3) [(tokB, .finite 100)] rfl⟩

/-- C6 (confirmed): with tokens `[A, B]` and a 1-minute window, both start
dead at `-inf` (immediately eligible); the first two acquisitions sign with
A then B (FIFO); after both tokens are retired at t = 0, a request at t = 0
gets no token (it is held and `IgnoreRequest` is raised), and a request at
t = 60 seconds is signed with A. -/
theorem C6_theorem :
    spider_opened (some [tokA, tokB]) 1 = .ok c6s0 ∧
    process_request c6s0 { url := "https://api.example/1" } 0 = (c6s1, .ok c6ra) ∧
    c6ra.meta.token = some tokA ∧
    process_request c6s1 { url := "https://api.example/2" } 0 = (c6s2, .ok c6rb) ∧
    c6rb.meta.token = some tokB ∧
    process_response (fun _ => (true, false)) c6s2 c6ra () 0 = (c6s3, .ok (.response ())) ∧
    process_response (fun _ => (true, false)) c6s3 c6rb () 0 = (c6s4, .ok (.response ())) ∧
    process_request c6s4 { url := "https://api.example/3" } 0 =
      (c6s4h, .error .ignoreRequest) ∧
    process_request c6s4h { url := "https://api.example/4" } 60 = (c6s5, .ok c6rc) ∧
    c6rc.meta.token = some tokA := by
  refine ⟨rfl, rfl, rfl, rfl, rfl, rfl, rfl, ?_, ?_, rfl⟩ <;> decide

/-- C7 (counterexample): an idle notification with a non-empty holding
queue and no token in either queue: `_dead_token_time_left` returns
`float('inf')`, the code executes `sleep(float('inf'))` which raises and
never completes, so no held request is re-dispatched, the holding queue is
not cleared, and `DontCloseSpider` is never raised — the held request is
dropped when the spider then shuts down. -/
theorem C7_counterexample :
    spider_idle c7empty 0 = (c7empty, .error .overflowError) := by decide

/-- C7 (amended): for every idle notification arriving with a non-empty
holding queue, provided the live queue is non-empty or the earliest-dead
cooldown is finite (some token exists to wait for), after any cooldown wait
every held request is resubmitted for dispatch in the original FIFO order
in which it was held, the holding queue is cleared (token queues
unchanged), and `DontCloseSpider` signals the host to keep running; only
when the live queue is empty and the cooldown computation returns infinity
(both queues empty) does the idle hook instead abort inside
`sleep(float('inf'))`, dropping the held requests. -/
theorem C7_theorem (s : OAuth1State) (now : ℚ)
    (h : s.requests_on_hold ≠ [])
    (hfin : s.tokens_live ≠ [] ∨ dead_token_time_left s now ≠ PyFloat.inf) :
    (spider_idle s now).1 = { s with requests_on_hold := [] } ∧
    Except.map (fun res => (res.dispatched, res.keepRunning)) (spider_idle s now).2 =
      .ok (s.requests_on_hold, true) := by
  have hne : s.requests_on_hold.isEmpty = false := by
    cases hh : s.requests_on_hold with
    | nil => exact absurd hh h
    | cons a t => rfl
  cases hlv : s.tokens_live.isEmpty with
  | false =>
    simp [spider_idle, hne, hlv, Except.map]
  | true =>
    have htl : dead_token_time_left s now ≠ PyFloat.inf := by
      rcases hfin with hfin | hfin
      · cases hl : s.tokens_live with
        | nil => exact absurd hl hfin
        | cons a t => rw [hl] at hlv; simp at hlv
      · exact hfin
    cases hlt : PyFloat.lt (.finite 0) (dead_token_time_left s now) with
    | false => simp [spider_idle, hne, hlv, hlt, Except.map]
    | true => simp [spider_idle, hne, hlv, hlt, htl, Except.map]

/-- C7 witness: the idle hook on a state holding one request with one dead
token cooling down (finite cooldown, so the sleep completes). -/
theorem C7_witness :
    (spider_idle c7s 0).1 = { c7s with requests_on_hold := [] } ∧
    Except.map (fun res => (res.dispatched, res.keepRunning)) (spider_idle c7s 0).2 =
      .ok (c7s.requests_on_hold, true) :=
  C7_theorem c7s 0 (by decide) (Or.inr (by decide))

/-- C8 (confirmed): with an empty holding queue, `spider_idle` is a no-op:
it sleeps for nothing, dispatches nothing, raises no `DontCloseSpider`, and
returns the state — live, dead and holding queues — unchanged. -/
theorem C8_theorem (s : OAuth1State) (now : ℚ) (h : s.requests_on_hold = []) :
    spider_idle s now =
      (s, .ok { dispatched := [], waited := none, keepRunning := false }) := by
  simp [spider_idle, h]

/-- C8 witness: the idle hook on a state with nothing held. -/
theorem C8_witness :
    spider_idle c5sEmpty 7 =
      (c5sEmpty, .ok { dispatched := [], waited := none, keepRunning := false }) :=
  C8_theorem c5sEmpty 7 rfl

/-- C10 (confirmed): a response whose request carries no `oauth` meta key
makes `process_response` fall through: it returns Python's implicit `None`
(neither the response nor a retry request) and leaves the state — live
queue, dead queue, holding queue — untouched, for every classifier. -/
theorem C10_theorem {α : Type} (check_response : α → Bool × Bool)
    (s : OAuth1State) (request : Request) (response : α) (now : ℚ)
    (h : request.meta.oauth = none) :
    process_response check_response s request response now = (s, .ok .noneReturned) := by
  simp [process_response, h]

/-- C10 witness: a fresh (never signed) request at an arbitrary state. -/
theorem C10_witness :
    process_response (fun _ => (true, true)) c5sFull c4req () 3 =
      (c5sFull, .ok .noneReturned) :=
  C10_theorem (fun _ => (true, true)) c5sFull c4req () 3 rfl

end HttpOAuth1Middleware

/-- C9 (confirmed): in the OAuth2 bearer flow, when auth is configured and
the request is not already marked `oauth`, a URL that is not https is
rejected outright with `InsecureTransportError`: no bearer token is
attached and no replaced request is produced. -/
theorem C9_theorem (request : Request)
    (h1 : request.meta.oauth.getD false = false)
    (h2 : HttpOAuth2Middleware.is_secure_transport request.url = false) :
    HttpOAuth2Middleware.process_request true request = .error .insecureTransportError := by
  simp [HttpOAuth2Middleware.process_request, h1, h2]

/-- C9 witness: a plain-http request with empty meta. -/
theorem C9_witness :
    HttpOAuth2Middleware.process_request true { url := "http://plain.example/cb" } =
      .error .insecureTransportError :=
  C9_theorem { url := "http://plain.example/cb" } rfl (by decide)

namespace HttpOAuth1Middleware

theorem mem_removeNth {α : Type} (l : List α) (i : Nat) (a : α)
    (h : a ∈ removeNth l i) : a ∈ l := by
  induction l generalizing i with
  | nil => simp [removeNth] at h
  | cons b t ih =>
    cases i with
    | zero =>
      simp only [removeNth] at h
      exact List.mem_cons_of_mem b h
    | succ n =>
      simp only [removeNth, List.mem_cons] at h
      rcases h with h | h
      · exact h ▸ List.mem_cons_self b t
      · exact List.mem_cons_of_mem b (ih n h)

theorem filterMap_removeNth_perm {α β : Type} (f : α → Option β)
    (l : List α) (i : Nat) (r : α) (b : β)
    (hget : l.get? i = some r) (hfb : f r = some b) :
    List.Perm ((removeNth l i).filterMap f ++ [b]) (l.filterMap f) := by
  induction l generalizing i with
  | nil => simp at hget
  | cons a t ih =>
    cases i with
    | zero =>
      obtain rfl : a = r := by simpa using hget
      simp only [removeNth, List.filterMap_cons, hfb]
      exact List.perm_append_singleton b (t.filterMap f)
    | succ n =>
      have hget' : t.get? n = some r := by simpa using hget
      cases hfa : f a with
      | none => simpa [removeNth, List.filterMap_cons, hfa] using ih n hget'
      | some c =>
        simpa [removeNth, List.filterMap_cons, hfa] using (ih n hget').cons c

theorem obtain_token_of_live_empty (s : OAuth1State) (now : ℚ)
    (hlive : s.tokens_live = []) :
    obtain_token s now = (s, .ok none) ∨
    ∃ t d rest, s.tokens_dead = (t, d) :: rest ∧
      obtain_token s now = ({ s with tokens_dead := rest }, .ok (some (t, 0))) := by
  cases hd : s.tokens_dead with
  | nil =>
    left
    have hinf : dead_token_time_left s now = PyFloat.inf := by
      simp [dead_token_time_left, hd]
    simp [obtain_token, hlive, hinf, PyFloat.lt]
  | cons p rest =>
    obtain ⟨t, d⟩ := p
    cases hlt : PyFloat.lt (.finite 0) (dead_token_time_left s now) with
    | true =>
      left
      simp [obtain_token, hlive, hlt]
    | false =>
      right
      exact ⟨t, d, rest, rfl, by simp [obtain_token, hlive, hlt, hd]⟩

theorem process_request_of_live_empty (s : OAuth1State) (r : Request) (now : ℚ)
    (hlive : s.tokens_live = []) :
    process_request s r now =
      ({ s with requests_on_hold := s.requests_on_hold ++ [r] }, .error .ignoreRequest) ∨
    ∃ t d rest, s.tokens_dead = (t, d) :: rest ∧
      process_request s r now =
        ({ s with tokens_dead := rest },
         .ok { r with authorization := some (.oauth1sig t r.url),
                      meta := { r.meta with oauth := some true, token := some t } }) := by
  rcases obtain_token_of_live_empty s now hlive with h | ⟨t, d, rest, hd, h⟩
  · left
    simp [process_request, h]
  · right
    exact ⟨t, d, rest, hd, by simp [process_request, h]⟩

theorem inv_step_req (ts : List Token) (σ : SysState) (url : String) (now : ℚ)
    (h : Inv ts σ) : Inv ts (step σ (.req url now)) := by
  obtain ⟨hlive, hfl, hperm⟩ := h
  rcases process_request_of_live_empty σ.mw { url := url } now hlive
    with hpr | ⟨t, d, rest, hd, hpr⟩
  · simp only [step, hpr]
    refine ⟨hlive, hfl, ?_⟩
    simpa [poolTokens, liveTokens, deadTokens, flightTokens] using hperm
  · simp only [step, hpr]
    refine ⟨hlive, ?_, ?_⟩
    · intro r hr
      rcases List.mem_append.1 hr with hr | hr
      · exact hfl r hr
      · simp only [List.mem_singleton] at hr
        subst hr
        rfl
    · have hperm' : List.Perm
          ((t :: rest.map Prod.fst) ++ flightTokens σ.in_flight) ts := by
        simpa [poolTokens, liveTokens, deadTokens, flightTokens, hlive, hd] using hperm
      have hnew : List.Perm
          (rest.map Prod.fst ++ (flightTokens σ.in_flight ++ [t]))
          ((t :: rest.map Prod.fst) ++ flightTokens σ.in_flight) :=
        List.Perm.trans
          (List.Perm.append_left _ (List.perm_append_singleton t _))
          List.perm_middle
      simpa [poolTokens, liveTokens, deadTokens, flightTokens, hlive]
        using hnew.trans hperm'

theorem inv_step_resp (ts : List Token) (σ : SysState) (i : Nat)
    (token_dead retry : Bool) (now : ℚ) (h : Inv ts σ) :
    Inv ts (step σ (.resp i token_dead retry now)) := by
  obtain ⟨hlive, hfl, hperm⟩ := h
  cases hget : σ.in_flight.get? i with
  | none =>
    simp only [step, hget]
    exact ⟨hlive, hfl, hperm⟩
  | some r =>
    have hmem : r ∈ σ.in_flight := List.get?_mem hget
    have htrs : r.meta.token_requests_succeed = none := hfl r hmem
    cases hoauth : r.meta.oauth.getD false with
    | false =>
      simp only [step, hget, process_response, hoauth, Bool.false_eq_true, if_false]
      exact ⟨hlive, hfl, hperm⟩
    | true =>
      cases htok : r.meta.token with
      | none =>
        simp only [step, hget, process_response, hoauth, if_true, htok]
        exact ⟨hlive, hfl, hperm⟩
      | some t =>
        cases token_dead with
        | false =>
          simp only [step, hget, process_response, hoauth, if_true, htok, htrs,
            Bool.false_eq_true, if_false]
          exact ⟨hlive, hfl, hperm⟩
        | true =>
          have hflight : List.Perm
              (flightTokens (removeNth σ.in_flight i) ++ [t])
              (flightTokens σ.in_flight) :=
            filterMap_removeNth_perm _ σ.in_flight i r t hget htok
          have hfl' : ∀ r' ∈ removeNth σ.in_flight i,
              r'.meta.token_requests_succeed = none :=
            fun r' hr' => hfl r' (mem_removeNth _ _ _ hr')
          have hperm' : List.Perm
              ((deadTokens σ.mw ++ [t]) ++ flightTokens (removeNth σ.in_flight i))
              ts := by
            have h1 : List.Perm
                ((deadTokens σ.mw ++ [t]) ++ flightTokens (removeNth σ.in_flight i))
                (deadTokens σ.mw ++ (flightTokens (removeNth σ.in_flight i) ++ [t])) := by
              rw [List.append_assoc]
              exact List.Perm.append_left _ List.perm_append_comm
            have h2 := List.Perm.append_left (deadTokens σ.mw) hflight
            have h0 : List.Perm (deadTokens σ.mw ++ flightTokens σ.in_flight) ts := by
              simpa [poolTokens, liveTokens, hlive] using hperm
            exact (h1.trans h2).trans h0
          cases retry with
          | false =>
            simp only [step, hget, process_response, hoauth, if_true, htok,
              Bool.false_eq_true, if_false]
            refine ⟨by simpa using hlive, hfl', ?_⟩
            simpa [poolTokens, liveTokens, deadTokens, flightTokens, hlive]
              using hperm'
          | true =>
            simp only [step, hget, process_response, hoauth, if_true, htok]
            refine ⟨by simpa using hlive, hfl', ?_⟩
            simpa [poolTokens, liveTokens, deadTokens, flightTokens, hlive]
              using hperm'

theorem inv_step_idle (ts : List Token) (σ : SysState) (now : ℚ) (h : Inv ts σ) :
    Inv ts (step σ (.idle now)) := by
  obtain ⟨hlive, hfl, hperm⟩ := h
  have hmw : (spider_idle σ.mw now).1 = σ.mw ∨
      (spider_idle σ.mw now).1 = { σ.mw with requests_on_hold := [] } := by
    simp only [spider_idle]
    repeat' split
    all_goals first
    | exact Or.inl rfl
    | exact Or.inr rfl
  have hstep : step σ (.idle now) =
      { mw := (spider_idle σ.mw now).1, in_flight := σ.in_flight } := rfl
  rcases hmw with hmw | hmw
  · rw [hstep, hmw]
    exact ⟨hlive, hfl, hperm⟩
  · rw [hstep, hmw]
    refine ⟨by simpa using hlive, hfl, ?_⟩
    simpa [poolTokens, liveTokens, deadTokens, flightTokens] using hperm

theorem inv_step (ts : List Token) (σ : SysState) (st : Step) (h : Inv ts σ) :
    Inv ts (step σ st) := by
  cases st with
  | req url now => exact inv_step_req ts σ url now h
  | resp i token_dead retry now => exact inv_step_resp ts σ i token_dead retry now h
  | idle now => exact inv_step_idle ts σ now h

theorem inv_run (ts : List Token) (steps : List Step) (σ : SysState) (h : Inv ts σ) :
    Inv ts (steps.foldl step σ) := by
  induction steps generalizing σ with
  | nil => exact h
  | cons st rest ih => exact ih (step σ st) (inv_step ts σ st h)

theorem inv_init (ts : List Token) (w : ℚ) : Inv ts (initSys ts w) := by
  refine ⟨rfl, ?_, ?_⟩
  · intro r hr
    simp [initSys] at hr
  · have hpool : poolTokens (initSys ts w) = ts := by
      simp only [poolTokens, liveTokens, deadTokens, flightTokens, initSys,
        zip_replicate_eq_map, map_fst_map_pair, List.map_nil, List.filterMap_nil,
        List.nil_append, List.append_nil]
    rw [hpool]

/-- C1 (counterexample): conservation across live and dead queues alone
fails as soon as a token is acquired: after `spider_opened` on one token
followed by a single `process_request`, the token is bound to the in-flight
request's metadata and the two queues together hold zero tokens, not one. -/
theorem C1_counterexample :
    (run [tokA] 0 [Step.req "https://api.example/r" 0]).mw.tokens_live.length +
      (run [tokA] 0 [Step.req "https://api.example/r" 0]).mw.tokens_dead.length ≠ 1 := by
  decide

/-- C1 (amended): for every initialization with N ≥ 1 tokens and every
sequence of `process_request` / `process_response` / `spider_idle` events,
the tokens across the live queue, the dead queue AND the in-flight request
bindings are exactly the N initial tokens (as a multiset: each token entry
is in exactly one of the three places, never duplicated, never lost), and
the three token counts always sum to N. -/
theorem C1_theorem (ts : List Token) (w : ℚ) (steps : List Step) (_hN : ts ≠ []) :
    ((poolTokens (run ts w steps) : List Token) : Multiset Token) = (ts : Multiset Token) ∧
    (run ts w steps).mw.tokens_live.length + (run ts w steps).mw.tokens_dead.length +
      (flightTokens (run ts w steps).in_flight).length = ts.length := by
  obtain ⟨-, -, hperm⟩ := inv_run ts steps (initSys ts w) (inv_init ts w)
  refine ⟨Multiset.coe_eq_coe.2 hperm, ?_⟩
  have hlen := hperm.length_eq
  simp [poolTokens, liveTokens, deadTokens, flightTokens] at hlen
  simp only [run, flightTokens]
  omega

/-- C1 witness: two tokens, a 1-minute window, and a concrete event
sequence that signs, retires, signs again and goes idle. -/
theorem C1_witness :
    ([tokA, tokB] : List Token) ≠ [] ∧
    (((poolTokens (run [tokA, tokB] 1 c1steps) : List Token) : Multiset Token) =
        ([tokA, tokB] : Multiset Token) ∧
      (run [tokA, tokB] 1 c1steps).mw.tokens_live.length +
        (run [tokA, tokB] 1 c1steps).mw.tokens_dead.length +
        (flightTokens (run [tokA, tokB] 1 c1steps).in_flight).length =
        ([tokA, tokB] : List Token).length) :=
  ⟨by decide, C1_theorem [tokA, tokB] 1 c1steps (by decide)⟩

end HttpOAuth1Middleware
